import Mathlib

/-
Verification of the notification-dispatch module of django-oscar
(src/oscar/apps/communication/utils.py, class Dispatcher).

The Python code is shallowly embedded: every dispatcher method becomes a
pure Lean function that returns its result together with an explicit
record of the side effects it performed (emails handed to the transport,
Email model rows written, warnings logged, CommunicationEvent audit rows
created).  External collaborators (template loader and renderer, the ORM
alert table, the partner availability strategy, Django settings) are
passed in as explicit environment data.
-/

set_option linter.unusedVariables false

namespace Oscar

/-- Python string truthiness: a string is truthy iff it is non-empty. -/
def truthy (s : String) : Bool := s != ""

/-- Python str.strip(): drop leading and trailing whitespace.  (Defined over
the character list so that proofs can evaluate it; String.trim does not
reduce in the kernel.) -/
def pyStrip (s : String) : String :=
  ⟨((s.toList.dropWhile Char.isWhitespace).reverse.dropWhile Char.isWhitespace).reverse⟩

/-- A rendered message bundle with the four keys subject / body / html / sms,
as produced by the template machinery and consumed by the Dispatcher. -/
structure Messages where
  subject : String
  body : String
  html : String
  sms : String
deriving Repr, DecidableEq

/-- Python truthiness of a message bundle.  A bundle is a dict that always
carries its four keys, hence is a non-empty dict and always truthy; this
models the defensive `if messages` guard in the alert fan-out. -/
def Messages.toBool (_m : Messages) : Bool := true

/-- A Django EmailMessage / EmailMultiAlternatives as constructed by
send_email_messages.  `html` is the attached text/html alternative and is
"" when a plain EmailMessage (no alternative) was built. -/
structure Email where
  subject : String
  body : String
  html : String
  from_email : Option String
  -- the `to=[recipient_email]` argument (field renamed: `to` is reserved in Lean)
  to_email : String
deriving Repr, DecidableEq

/-- The communication.Email model row written by create_customer_email. -/
structure DbEmail where
  user_id : Nat
  email : String
  subject : String
  body_text : String
  body_html : String
deriving Repr, DecidableEq

/-- The Django settings the dispatcher consults: OSCAR_FROM_EMAIL (absent or a
value) and OSCAR_SAVE_SENT_EMAILS_TO_DB (getattr default True). -/
structure Settings where
  fromEmail : Option String
  saveSentEmailsToDb : Bool
deriving Repr, DecidableEq

/-- A django.contrib.auth user as seen by the dispatcher. -/
structure User where
  id : Nat
  email : String
  is_authenticated : Bool
deriving Repr, DecidableEq

/-- The side effects a dispatcher call performs, in order of occurrence:
emails given to the mail transport, Email model rows persisted, warnings
logged through self.logger, and CommunicationEvent audit rows created
(as pairs of order number and event-type code). -/
structure Effects where
  emailsSent : List Email := []
  dbEmails : List DbEmail := []
  logWarnings : Nat := 0
  commEvents : List (String × String) := []
deriving Repr, DecidableEq

def Effects.append (a b : Effects) : Effects :=
  { emailsSent := a.emailsSent ++ b.emailsSent
    dbEmails := a.dbEmails ++ b.dbEmails
    logWarnings := a.logWarnings + b.logWarnings
    commEvents := a.commEvents ++ b.commEvents }

instance : Append Effects := ⟨Effects.append⟩

/-- Dispatcher.send_email_messages: builds an EmailMultiAlternatives when the
bundle has an html part (attaching it), else a plain EmailMessage; the
OSCAR_FROM_EMAIL setting overrides the from_email argument; the message is
then handed to the mail connection / transport and returned. -/
def send_email_messages (st : Settings) (recipient_email : String) (m : Messages)
    (from_email0 : Option String) : Email × Effects :=
  let from_email :=
    match st.fromEmail with
    | some f => some f
    | none => from_email0
  let email : Email :=
    { subject := m.subject, body := m.body, html := m.html
      from_email := from_email, to_email := recipient_email }
  (email, { emailsSent := [email] })

/-- Dispatcher.dispatch_direct_messages: sends to the explicitly given
recipient only when the bundle has a subject and a body or an html part. -/
def dispatch_direct_messages (st : Settings) (recipient_email : String) (m : Messages) :
    Option Email × Effects :=
  if truthy m.subject && (truthy m.body || truthy m.html) then
    let r := send_email_messages st recipient_email m none
    (some r.1, r.2)
  else
    (none, {})

/-- Dispatcher.create_customer_email: persists an Email model row for audit,
but only when an email object exists and the user is authenticated. -/
def create_customer_email (u : User) (m : Messages) (email : Option Email) : Effects :=
  match email with
  | some e =>
    if u.is_authenticated then
      { dbEmails := [{ user_id := u.id, email := u.email, subject := e.subject
                       body_text := e.body, body_html := m.html }] }
    else {}
  | none => {}

/-- Dispatcher.send_user_email_messages: logs a warning and returns the
Python pair (None, None) when the user has no email address; otherwise
sends, optionally persists an Email row (gated by the
OSCAR_SAVE_SENT_EMAILS_TO_DB setting), and returns the sent email.
The returned Option is none exactly for the (None, None) outcome. -/
def send_user_email_messages (st : Settings) (u : User) (m : Messages) :
    Option Email × Effects :=
  if !truthy u.email then
    (none, { logWarnings := 1 })
  else
    let r := send_email_messages st u.email m none
    let eff2 := if st.saveSentEmailsToDb then create_customer_email u m (some r.1) else {}
    (some r.1, r.2 ++ eff2)

/-- The exceptions the dispatcher itself can raise. -/
inductive DispatchError
  | notImplemented
deriving Repr, DecidableEq

/-- Dispatcher.send_text_message: the SMS channel; unconditionally raises
NotImplementedError. -/
def send_text_message (_u : User) (_sms : String) : Except DispatchError Unit :=
  .error .notImplemented

/-- The dispatched_messages dict built by the dispatch_* methods.  A field is
some when its key is present.  For the email key the inner Option records
what was stored: some e when an email object was actually sent, none for the
(None, None) pair returned by send_user_email_messages without a recipient.
The sms key would store a send_text_message result, which always raises, so
it is never actually populated. -/
structure DispatchedMessages where
  email : Option (Option Email) := none
  sms : Option Unit := none
deriving Repr, DecidableEq

/-- Python truthiness of the dispatched_messages dict: non-empty. -/
def DispatchedMessages.toBool (d : DispatchedMessages) : Bool :=
  d.email.isSome || d.sms.isSome

/-- Dispatcher.dispatch_anonymous_messages: when the email address is truthy,
stores the pair (send_email_messages result, None) under the email key.
Note there is no subject/body/html gate on this path. -/
def dispatch_anonymous_messages (st : Settings) (email : String) (m : Messages) :
    DispatchedMessages × Effects :=
  if truthy email then
    let r := send_email_messages st email m none
    ({ email := some (some r.1) }, r.2)
  else
    ({}, {})

/-- Dispatcher.dispatch_user_messages: email channel gated on subject and
(body or html); sms channel gated on a truthy sms part, and raising because
send_text_message is unimplemented (the exception propagates, carrying the
effects already performed). -/
def dispatch_user_messages (st : Settings) (u : User) (m : Messages) :
    Except (DispatchError × Effects) (DispatchedMessages × Effects) :=
  let sent :=
    if truthy m.subject && (truthy m.body || truthy m.html) then
      let r := send_user_email_messages st u m
      ((some r.1 : Option (Option Email)), r.2)
    else
      ((none : Option (Option Email)), ({} : Effects))
  if truthy m.sms then
    match send_text_message u m.sms with
    | .error err => .error (err, sent.2)
    | .ok _ => .ok ({ email := sent.1, sms := some () }, sent.2)
  else
    .ok ({ email := sent.1 }, sent.2)

/-- An order as seen by dispatch_order_messages. -/
structure Order where
  number : String
  user : Option User
  guest_email : String
deriving Repr, DecidableEq

/-- order.is_anonymous (order model, outside this module): the order has no
associated user. -/
def Order.is_anonymous (o : Order) : Bool := o.user.isNone

/-- Which recipient-resolution path dispatch_order_messages took. -/
inductive Path
  | guest
  | user
deriving Repr, DecidableEq

/-- Dispatcher.create_communication_event: creates the audit row only when
the dispatched_messages dict is truthy and the event type exists. -/
def create_communication_event (o : Order) (event_type : Option String)
    (dm : DispatchedMessages) : Effects :=
  match event_type with
  | some code => if dm.toBool then { commEvents := [(o.number, code)] } else {}
  | none => {}

structure OrderDispatchResult where
  path : Path
  dispatched : DispatchedMessages
  eff : Effects
deriving Repr, DecidableEq

/-- Dispatcher.dispatch_order_messages: guest orders resolve the recipient
from the email_address kwarg (when supplied) or order.guest_email and go
through dispatch_anonymous_messages; orders with a user go through
dispatch_user_messages.  The event type is looked up by code, a missing
code (CommunicationEventType.DoesNotExist) being caught and treated as
None, and create_communication_event runs last.  eventTypeCodes is the set
of codes present in the CommunicationEventType table. -/
def dispatch_order_messages (st : Settings) (eventTypeCodes : List String) (o : Order)
    (m : Messages) (event_code : String) (email_address : Option String) :
    Except (DispatchError × Effects) OrderDispatchResult :=
  match o.user with
  | none =>
    let email := email_address.getD o.guest_email
    let r := dispatch_anonymous_messages st email m
    let event_type := if eventTypeCodes.contains event_code then some event_code else none
    let eff2 := create_communication_event o event_type r.1
    .ok { path := .guest, dispatched := r.1, eff := r.2 ++ eff2 }
  | some u =>
    match dispatch_user_messages st u m with
    | .error e => .error e
    | .ok y =>
      let event_type := if eventTypeCodes.contains event_code then some event_code else none
      let eff2 := create_communication_event o event_type y.1
      .ok { path := .user, dispatched := y.1, eff := y.2 ++ eff2 }

/-- ProductAlert statuses (customer app). -/
inductive AlertStatus
  | UNCONFIRMED
  | ACTIVE
  | CANCELLED
  | CLOSED
deriving Repr, DecidableEq

/-- A customer.ProductAlert row.  `email` is the address stored for an
anonymous (userless) alert. -/
structure Alert where
  id : Nat
  product_id : Nat
  user : Option User
  email : String
  status : AlertStatus
deriving Repr, DecidableEq

/-- ProductAlert.get_email_address (customer app, outside this module): the
user's address for a registered alert, else the stored anonymous address. -/
def Alert.get_email_address (a : Alert) : String :=
  match a.user with
  | some u => u.email
  | none => a.email

/-- A partner.StockRecord row; num_in_stock is a nullable integer column. -/
structure StockRecord where
  num_in_stock : Option Int
deriving Repr, DecidableEq

structure Product where
  id : Nat
  parent_id : Option Nat
  stockrecords : List StockRecord
deriving Repr, DecidableEq

/-- The queryset ProductAlert.objects.filter(product_id__in=(product.id,
product.parent_id), status=ProductAlert.ACTIVE) over the alert table. -/
def active_alerts_for (db : List Alert) (p : Product) : List Alert :=
  db.filter fun a =>
    (a.product_id == p.id ||
      (match p.parent_id with
       | some pid => a.product_id == pid
       | none => false)) &&
    a.status == AlertStatus.ACTIVE

/-- stockrecords.aggregate(max_in_stock=Max('num_in_stock')): SQL MAX ignores
NULL values and is NULL when no non-null value exists. -/
def aggregate_max_in_stock (srs : List StockRecord) : Option Int :=
  match srs.filterMap StockRecord.num_in_stock with
  | [] => none
  | v :: vs => some (vs.foldl max v)

/-- The context passed to send_product_alert_confirmation_email_for_user's
templates: the default is the dict with the alert under the key alert; a
caller-supplied extra_context is modelled by the opaque `extra` payload. -/
structure ConfirmCtx where
  alert : Option Alert
  extra : String := ""
deriving Repr, DecidableEq

/-- The django.template.exceptions.TemplateDoesNotExist exception. -/
inductive TemplateDoesNotExist
  | mk
deriving Repr, DecidableEq

/-- The external environment of the product-alert methods: settings, the
current site, the alert table, the per-user availability strategy
(strategy.fetch_for_product(product).availability.is_available_to_buy for
the strategy selected for the given user), which legacy template files
exist, and the template renderers.  Each renderer takes the base context
(the site) plus the extra context it is rendered with. -/
structure AlertEnv where
  settings : Settings
  site : String
  db_alerts : List Alert
  available : Option User → Bool
  legacyAlertSubjectTplExists : Bool
  legacyAlertBodyTplExists : Bool
  renderLegacyAlertSubject : String → Alert → Bool → String
  renderLegacyAlertBody : String → Alert → Bool → String
  get_and_render_alert : String → Alert → Bool → Messages
  renderAlertNotifySubject : String → Alert → Bool → String
  renderAlertNotifyBody : String → Alert → Bool → String
  legacyConfirmSubjectTplExists : Bool
  legacyConfirmBodyTplExists : Bool
  renderLegacyConfirmSubject : String → ConfirmCtx → String
  renderLegacyConfirmBody : String → ConfirmCtx → String
  get_and_render_confirmation : String → ConfirmCtx → Messages

/-- The two loader.get_template calls of the legacy product-alert path
(customer/alerts/emails/alert_subject.txt then alert_body.txt); the first
missing template raises TemplateDoesNotExist. -/
def load_legacy_alert_templates (env : AlertEnv) : Except TemplateDoesNotExist Unit :=
  if env.legacyAlertSubjectTplExists then
    if env.legacyAlertBodyTplExists then .ok () else .error .mk
  else .error .mk

/-- The legacy alert message bundle as built at lines 287-294 of utils.py:
subject rendered and stripped, body rendered unstripped, html and sms empty. -/
def legacy_alert_bundle (env : AlertEnv) (alert : Alert) (hurry : Bool) : Messages :=
  { subject := pyStrip (env.renderLegacyAlertSubject env.site alert hurry)
    body := env.renderLegacyAlertBody env.site alert hurry
    html := "", sms := "" }

/-- The try/except TemplateDoesNotExist block of
send_product_alert_email_for_user (lines 270-296): the legacy templates are
preferred, with one RemovedInOscar21Warning deprecation warning emitted;
when a legacy template is missing the exception is caught and
get_messages(PRODUCT_ALERT_EVENT_CODE, extra_context) is used.  Returns
the chosen bundle and the number of deprecation warnings emitted. -/
def legacy_or_current_alert_messages (env : AlertEnv) (alert : Alert) (hurry : Bool) :
    Messages × Nat :=
  match load_legacy_alert_templates env with
  | .ok _ => (legacy_alert_bundle env alert hurry, 1)
  | .error _ => (env.get_and_render_alert env.site alert hurry, 0)

/-- The two loader.get_template calls of the legacy confirmation path
(customer/alerts/emails/confirmation_subject.txt then confirmation_body.txt). -/
def load_legacy_confirmation_templates (env : AlertEnv) : Except TemplateDoesNotExist Unit :=
  if env.legacyConfirmSubjectTplExists then
    if env.legacyConfirmBodyTplExists then .ok () else .error .mk
  else .error .mk

/-- The legacy confirmation bundle as built at lines 338-345 of utils.py. -/
def legacy_confirmation_bundle (env : AlertEnv) (ctx : ConfirmCtx) : Messages :=
  { subject := pyStrip (env.renderLegacyConfirmSubject env.site ctx)
    body := env.renderLegacyConfirmBody env.site ctx
    html := "", sms := "" }

/-- The try/except TemplateDoesNotExist block of
send_product_alert_confirmation_email_for_user (lines 322-347). -/
def legacy_or_current_confirmation_messages (env : AlertEnv) (ctx : ConfirmCtx) :
    Messages × Nat :=
  match load_legacy_confirmation_templates env with
  | .ok _ => (legacy_confirmation_bundle env ctx, 1)
  | .error _ => (env.get_and_render_confirmation env.site ctx, 0)

/-- The loop state of send_product_alert_email_for_user: the counters, the
site notifications created, the deprecation warnings emitted, the two
per-channel message queues, and the ids of the alerts closed. -/
structure LoopOut where
  num_notifications : Nat := 0
  notifications : List (User × String × String) := []
  deprecation_warnings : Nat := 0
  messages_to_send : List (String × Messages) := []
  user_messages_to_send : List (User × Messages) := []
  closed : List Nat := []
deriving Repr, DecidableEq

/-- Dispatcher.notify_user_about_product_alert: renders the in-app
notification subject and message (both stripped) for the user. -/
def notify_user_about_product_alert (env : AlertEnv) (u : User) (alert : Alert)
    (hurry : Bool) : User × String × String :=
  (u, pyStrip (env.renderAlertNotifySubject env.site alert hurry),
      pyStrip (env.renderAlertNotifyBody env.site alert hurry))

/-- One iteration of the alert loop (lines 251-303 of utils.py): skip the
alert when the product is not available to buy for its user; otherwise
create a site notification for a registered user, pick the legacy or the
current templates, queue the bundle when it is truthy and has a body, and
close the alert. -/
def process_alert (env : AlertEnv) (hurry : Bool) (s : LoopOut) (alert : Alert) : LoopOut :=
  if !env.available alert.user then s
  else
    let s1 :=
      match alert.user with
      | some u =>
        { s with num_notifications := s.num_notifications + 1
                 notifications := s.notifications ++
                   [notify_user_about_product_alert env u alert hurry] }
      | none => s
    let mw := legacy_or_current_alert_messages env alert hurry
    let s2 := { s1 with deprecation_warnings := s1.deprecation_warnings + mw.2 }
    let s3 :=
      if mw.1.toBool && truthy mw.1.body then
        match alert.user with
        | some u =>
          { s2 with user_messages_to_send := s2.user_messages_to_send ++ [(u, mw.1)] }
        | none =>
          { s2 with messages_to_send := s2.messages_to_send ++
              [(alert.get_email_address, mw.1)] }
      else s2
    { s3 with closed := s3.closed ++ [alert.id] }

/-- The batch `for message in messages_to_send: self.dispatch_direct_messages(*message)`. -/
def run_direct_batch (st : Settings) : List (String × Messages) → Effects
  | [] => {}
  | (addr, m) :: rest => (dispatch_direct_messages st addr m).2 ++ run_direct_batch st rest

/-- The batch `for message in user_messages_to_send:
self.dispatch_user_messages(*message)`; a raising dispatch (unimplemented
SMS) aborts the loop, keeping the effects performed so far. -/
def run_user_batch (st : Settings) : List (User × Messages) → Effects × Option DispatchError
  | [] => ({}, none)
  | (u, m) :: rest =>
    match dispatch_user_messages st u m with
    | .error e => (e.2, some e.1)
    | .ok y =>
      let r := run_user_batch st rest
      (y.2 ++ r.1, r.2)

/-- The observable outcome of send_product_alert_email_for_user: the hurry
flag that was used (false when the function returned early), the loop
output, the send effects, and the exception that escaped, if any. -/
structure AlertRunResult where
  hurry_mode : Bool
  loop : LoopOut
  eff : Effects
  err : Option DispatchError
deriving Repr, DecidableEq

/-- Dispatcher.send_product_alert_email_for_user (lines 220-314 of utils.py):
returns immediately when the product has no stock records; computes hurry
mode from the single stock record's num_in_stock or the SQL MAX aggregate,
false when that value is NULL; processes each active alert of the product
or its parent; then dispatches the queued direct and user messages. -/
def send_product_alert_email_for_user (env : AlertEnv) (p : Product) : AlertRunResult :=
  let stockrecords := p.stockrecords
  let num_stockrecords := stockrecords.length
  if num_stockrecords == 0 then
    { hurry_mode := false, loop := {}, eff := {}, err := none }
  else
    let alerts := active_alerts_for env.db_alerts p
    let num_in_stock : Option Int :=
      if num_stockrecords == 1 then
        match stockrecords with
        | sr :: _ => sr.num_in_stock
        | [] => none
      else
        aggregate_max_in_stock stockrecords
    let hurry_mode :=
      match num_in_stock with
      | none => false
      | some n => decide ((alerts.length : Int) > n)
    let out := alerts.foldl (process_alert env hurry_mode) {}
    let eff1 := run_direct_batch env.settings out.messages_to_send
    let rb := run_user_batch env.settings out.user_messages_to_send
    { hurry_mode := hurry_mode, loop := out, eff := eff1 ++ rb.1, err := rb.2 }

/-- alert.close() (customer app): sets the status to CLOSED.  The status an
alert row holds after a send_product_alert_email_for_user call. -/
def alert_status_after (res : AlertRunResult) (a : Alert) : AlertStatus :=
  if a.id ∈ res.loop.closed then AlertStatus.CLOSED else a.status

/-- The observable outcome of send_product_alert_confirmation_email_for_user. -/
structure ConfirmResult where
  messages : Messages
  deprecation_warnings : Nat
  sent : Option Email
  eff : Effects
deriving Repr, DecidableEq

/-- Dispatcher.send_product_alert_confirmation_email_for_user (lines
316-348): defaults extra_context to the dict holding the alert, picks the
legacy or the current confirmation templates, and dispatches directly to
alert.email. -/
def send_product_alert_confirmation_email_for_user (env : AlertEnv) (alert : Alert)
    (extra_context : Option ConfirmCtx) : ConfirmResult :=
  let ctx := extra_context.getD { alert := some alert }
  let mw := legacy_or_current_confirmation_messages env ctx
  let r := dispatch_direct_messages env.settings alert.email mw.1
  { messages := mw.1, deprecation_warnings := mw.2, sent := r.1, eff := r.2 }

/-- Spec wording (for claim C3): the maximum num_in_stock across the
product's stock records, unknown when no record has a known quantity. -/
def spec_max_in_stock (srs : List StockRecord) : Option Int :=
  (srs.filterMap StockRecord.num_in_stock).max?

/-- Spec wording (for claim C3): hurry mode is true iff the active-alert
count strictly exceeds the maximum in-stock count, and false when that
count is unknown. -/
def spec_hurry_mode (numAlerts : Nat) (srs : List StockRecord) : Bool :=
  match spec_max_in_stock srs with
  | none => false
  | some n => decide ((numAlerts : Int) > n)

/-! Helper lemmas -/

theorem truthy_eq_false_iff (s : String) : truthy s = false ↔ s = "" := by
  simp [truthy]

theorem truthy_eq_true_iff (s : String) : truthy s = true ↔ s ≠ "" := by
  simp [truthy]

theorem Effects.commEvents_append (a b : Effects) :
    (a ++ b).commEvents = a.commEvents ++ b.commEvents := rfl

theorem Effects.emailsSent_append (a b : Effects) :
    (a ++ b).emailsSent = a.emailsSent ++ b.emailsSent := rfl

theorem create_customer_email_commEvents (u : User) (m : Messages) (e : Option Email) :
    (create_customer_email u m e).commEvents = [] := by
  unfold create_customer_email
  cases e with
  | none => rfl
  | some x =>
    dsimp only
    split <;> rfl

theorem send_user_email_messages_commEvents (st : Settings) (u : User) (m : Messages) :
    (send_user_email_messages st u m).2.commEvents = [] := by
  unfold send_user_email_messages
  split
  · rfl
  · rw [Effects.commEvents_append]
    split <;> simp [create_customer_email_commEvents, send_email_messages]

/-- Joint behaviour of dispatch_user_messages: it raises exactly when the sms
part is non-empty, the failure is the unimplemented-SMS one, and the method
itself never writes audit rows. -/
theorem dispatch_user_messages_spec (st : Settings) (u : User) (m : Messages) :
    match dispatch_user_messages st u m with
    | .ok y => y.2.commEvents = [] ∧ m.sms = ""
    | .error e => e.1 = DispatchError.notImplemented ∧ e.2.commEvents = [] ∧ m.sms ≠ "" := by
  unfold dispatch_user_messages send_text_message
  cases hg : (truthy m.subject && (truthy m.body || truthy m.html)) <;>
    cases hs : truthy m.sms <;>
    simp [hg, hs, send_user_email_messages_commEvents]
  all_goals first
    | exact (truthy_eq_false_iff m.sms).mp hs
    | exact (truthy_eq_true_iff m.sms).mp hs

theorem dispatch_anonymous_messages_commEvents (st : Settings) (e : String) (m : Messages) :
    (dispatch_anonymous_messages st e m).2.commEvents = [] := by
  unfold dispatch_anonymous_messages
  split <;> rfl

/-! Claim C7 -/

/-- C7: for every user and bundle, dispatch_user_messages fails (raising the
unimplemented-SMS NotImplementedError) exactly when the bundle's sms part is
non-empty; with an empty sms part the SMS channel is never invoked and the
call completes normally. -/
theorem sms_channel_hard_failure (st : Settings) (u : User) (m : Messages) :
    match dispatch_user_messages st u m with
    | .error e => e.1 = DispatchError.notImplemented ∧ m.sms ≠ ""
    | .ok _ => m.sms = "" := by
  have h := dispatch_user_messages_spec st u m
  cases hd : dispatch_user_messages st u m with
  | ok y => rw [hd] at h; exact h.2
  | error e => rw [hd] at h; exact ⟨h.1, h.2.2⟩

def st0 : Settings := { fromEmail := none, saveSentEmailsToDb := true }

def mSms : Messages := { subject := "", body := "", html := "", sms := "HELLO" }

def u7 : User := { id := 7, email := "", is_authenticated := true }

/-- Witness for C7: a bundle carrying only an sms part makes
dispatch_user_messages raise the unimplemented-SMS failure. -/
theorem sms_channel_hard_failure_witness :
    dispatch_user_messages st0 u7 mSms = .error (DispatchError.notImplemented, {}) ∧
    mSms.sms ≠ "" := by
  have h := sms_channel_hard_failure st0 u7 mSms
  exact ⟨rfl, h.2⟩

/-! Claim C8 -/

/-- C8: for a user whose email address is empty, send_user_email_messages
performs no send, logs one warning, and returns the nothing-sent result
(the Python pair (None, None)); the surrounding dispatch still completes
without an exception when no sms part is present. -/
theorem send_user_email_messages_no_address (st : Settings) (u : User) (m : Messages)
    (h : u.email = "") :
    send_user_email_messages st u m =
      (none, { emailsSent := [], dbEmails := [], logWarnings := 1, commEvents := [] }) ∧
    (m.sms = "" → (dispatch_user_messages st u m).isOk = true) := by
  constructor
  · unfold send_user_email_messages
    have ht : truthy u.email = false := (truthy_eq_false_iff u.email).mpr h
    simp [ht]
  · intro hs
    have ht : truthy m.sms = false := (truthy_eq_false_iff m.sms).mpr hs
    unfold dispatch_user_messages
    simp [ht, Except.isOk, Except.toBool]

def mPlain : Messages := { subject := "s", body := "b", html := "", sms := "" }

/-- Witness for C8 at a concrete user with an empty address. -/
theorem send_user_email_messages_no_address_witness :
    send_user_email_messages st0 u7 mPlain =
      (none, { emailsSent := [], dbEmails := [], logWarnings := 1, commEvents := [] }) ∧
    (dispatch_user_messages st0 u7 mPlain).isOk = true :=
  ⟨(send_user_email_messages_no_address st0 u7 mPlain rfl).1,
   (send_user_email_messages_no_address st0 u7 mPlain rfl).2 rfl⟩

/-! Claim C2 -/

def mNoContent : Messages := { subject := "Your order", body := "", html := "", sms := "" }

/-- C2 counterexample: dispatch_anonymous_messages, the path used by
dispatch_order_messages for guest orders, has no content gate: a bundle
with empty body and empty html is still passed to send_email_messages (one
email is handed to the transport) whenever the address is non-empty, so an
email send does occur on that dispatch path. -/
theorem anonymous_path_sends_empty_bundle :
    mNoContent.body = "" ∧ mNoContent.html = "" ∧
    (dispatch_anonymous_messages st0 "guest@example.com" mNoContent).2.emailsSent.length = 1 :=
  ⟨rfl, rfl, rfl⟩

/-- C2 (amended): for a bundle with empty body and empty html,
dispatch_direct_messages and dispatch_user_messages never invoke
send_email_messages (no email is handed to the transport, also when the
sms failure aborts the user path); the anonymous path however sends such a
bundle whenever the recipient address is non-empty. -/
theorem no_email_without_content (st : Settings) (m : Messages)
    (hb : m.body = "") (hh : m.html = "") :
    (∀ r : String, (dispatch_direct_messages st r m).2.emailsSent = []) ∧
    (∀ u : User,
      match dispatch_user_messages st u m with
      | .ok y => y.2.emailsSent = []
      | .error e => e.2.emailsSent = []) ∧
    (∀ e : String, e ≠ "" →
      (dispatch_anonymous_messages st e m).2.emailsSent ≠ []) := by
  have htb : truthy m.body = false := (truthy_eq_false_iff m.body).mpr hb
  have hth : truthy m.html = false := (truthy_eq_false_iff m.html).mpr hh
  refine ⟨fun r => ?_, fun u => ?_, fun e he => ?_⟩
  · unfold dispatch_direct_messages
    simp [htb, hth]
  · unfold dispatch_user_messages send_text_message
    cases hs : truthy m.sms <;> simp [htb, hth, hs]
  · have hte : truthy e = true := (truthy_eq_true_iff e).mpr he
    unfold dispatch_anonymous_messages
    simp [hte, send_email_messages]

/-- Witness for C2 (amended) at concrete inputs: the gated direct path sends
nothing for a contentless bundle while the anonymous path does send it. -/
theorem no_email_without_content_witness :
    (dispatch_direct_messages st0 "a@b.c" mNoContent).2.emailsSent = [] ∧
    (dispatch_anonymous_messages st0 "a@b.c" mNoContent).2.emailsSent ≠ [] :=
  ⟨(no_email_without_content st0 mNoContent rfl rfl).1 "a@b.c",
   (no_email_without_content st0 mNoContent rfl rfl).2.2 "a@b.c" (by decide)⟩

/-! Claim C5 -/

theorem dispatch_anonymous_recipient (st : Settings) (e : String) (m : Messages)
    (x : Email) (h : (dispatch_anonymous_messages st e m).1.email = some (some x)) :
    x.to_email = e := by
  unfold dispatch_anonymous_messages at h
  by_cases ht : truthy e = true
  · simp [ht] at h
    rw [← h]
    rfl
  · simp [ht] at h

/-- C5: dispatch_order_messages routes an order with no user (is_anonymous)
through the guest-email path, emailing the supplied email_address kwarg or,
without one, order.guest_email, and never through the registered-user path;
a non-anonymous order never takes the guest path, and only the user path
can raise. -/
theorem order_routing (st : Settings) (ets : List String) (o : Order) (m : Messages)
    (code : String) (ea : Option String) :
    match dispatch_order_messages st ets o m code ea with
    | .ok r =>
      (r.path = Path.guest ↔ o.is_anonymous = true) ∧
      (o.is_anonymous = true → ∀ x : Email, r.dispatched.email = some (some x) →
        x.to_email = ea.getD o.guest_email)
    | .error _ => o.is_anonymous = false := by
  unfold dispatch_order_messages
  cases ho : o.user with
  | none =>
    dsimp only
    constructor
    · simp [Order.is_anonymous, ho]
    · intro _ x hx
      exact dispatch_anonymous_recipient st (ea.getD o.guest_email) m x hx
  | some u =>
    dsimp only
    cases hd : dispatch_user_messages st u m with
    | error e => simp [Order.is_anonymous, ho]
    | ok y =>
      constructor
      · simp [Order.is_anonymous, ho]
      · intro hanon
        rw [Order.is_anonymous, ho] at hanon
        simp at hanon

def oGuest : Order := { number := "G1", user := none, guest_email := "g@x.com" }

def emailGuest : Email :=
  { subject := "s", body := "b", html := "", from_email := none, to_email := "g@x.com" }

def rGuest : OrderDispatchResult :=
  { path := .guest, dispatched := { email := some (some emailGuest) }
    eff := { emailsSent := [emailGuest] } }

/-- Witness for C5: a concrete guest order takes the guest path. -/
theorem order_routing_witness :
    (dispatch_order_messages st0 [] oGuest mPlain "X" none).toOption.map
      OrderDispatchResult.path = some Path.guest := by
  have h := order_routing st0 [] oGuest mPlain "X" none
  have hp : dispatch_order_messages st0 [] oGuest mPlain "X" none = .ok rGuest := rfl
  rw [hp] at h ⊢
  simp [Except.toOption]
  exact h.1.mpr rfl

/-! Claim C1 -/

theorem lookup_commEvents (o : Order) (ets : List String) (code : String)
    (dm : DispatchedMessages) :
    ((create_communication_event o (if ets.contains code then some code else none)
        dm).commEvents ≠ [] ↔ (dm.toBool = true ∧ ets.contains code = true)) ∧
    (ets.contains code = false →
      (create_communication_event o (if ets.contains code then some code else none)
        dm).commEvents = []) := by
  cases hcc : ets.contains code <;> cases hb : dm.toBool <;>
    simp [hcc, hb, create_communication_event]

/-- C1 (amended): a CommunicationEvent audit row is created iff the dispatch
step recorded at least one channel attempt (a truthy dispatched_messages
dict — which happens even when nothing was actually sent, e.g. for a user
without an email address) and a CommunicationEventType with the event code
exists; a missing event type is caught and merely skips the audit; the only
exception that can escape is the unimplemented-SMS failure, which also
prevents the audit row. -/
theorem audit_iff_channel_recorded (st : Settings) (ets : List String) (o : Order)
    (m : Messages) (code : String) (ea : Option String) :
    match dispatch_order_messages st ets o m code ea with
    | .ok r =>
      (r.eff.commEvents ≠ [] ↔ (r.dispatched.toBool = true ∧ ets.contains code = true)) ∧
      (ets.contains code = false → r.eff.commEvents = [])
    | .error e => e.1 = DispatchError.notImplemented ∧ e.2.commEvents = [] := by
  unfold dispatch_order_messages
  cases ho : o.user with
  | none =>
    dsimp only
    rw [Effects.commEvents_append, dispatch_anonymous_messages_commEvents, List.nil_append]
    exact ⟨(lookup_commEvents o ets code _).1, (lookup_commEvents o ets code _).2⟩
  | some u =>
    dsimp only
    have hspec := dispatch_user_messages_spec st u m
    cases hd : dispatch_user_messages st u m with
    | error e =>
      rw [hd] at hspec
      exact ⟨hspec.1, hspec.2.1⟩
    | ok y =>
      rw [hd] at hspec
      dsimp only
      rw [Effects.commEvents_append, hspec.1, List.nil_append]
      exact ⟨(lookup_commEvents o ets code _).1, (lookup_commEvents o ets code _).2⟩

def uNoAddress : User := { id := 9, email := "", is_authenticated := true }

def oC1 : Order := { number := "100", user := some uNoAddress, guest_email := "" }

/-- C1 counterexample: order 100 belongs to a user with no email address and
the bundle has a subject and body, so the email channel is attempted but
sends nothing (send_user_email_messages returns the nothing-sent pair and
logs a warning); the ORDER_PLACED event type exists.  A CommunicationEvent
audit row is created even though no channel actually dispatched a message,
refuting the claimed equivalence. -/
theorem audit_without_actual_send :
    ¬ (∀ r, dispatch_order_messages st0 ["ORDER_PLACED"] oC1 mPlain "ORDER_PLACED" none =
          .ok r →
        (r.eff.commEvents ≠ [] ↔
          (r.eff.emailsSent ≠ [] ∧ List.contains ["ORDER_PLACED"] "ORDER_PLACED" = true))) := by
  intro h
  have h2 := h { path := .user, dispatched := { email := some none }
                 eff := { emailsSent := [], dbEmails := [], logWarnings := 1
                          commEvents := [("100", "ORDER_PLACED")] } } rfl
  have h3 := h2.mp (by decide)
  exact absurd h3.1 (by decide)

def oG2 : Order := { number := "200", user := none, guest_email := "g2@x.com" }

/-- Witness for C1 (amended): a guest order with a recipient and an existing
event type does get its audit row. -/
theorem audit_iff_channel_recorded_witness :
    (match dispatch_order_messages st0 ["ORDER_PLACED"] oG2 mPlain "ORDER_PLACED" none with
     | .ok r => r.eff.commEvents
     | .error _ => []) ≠ [] := by
  have h := audit_iff_channel_recorded st0 ["ORDER_PLACED"] oG2 mPlain "ORDER_PLACED" none
  exact h.1.mpr ⟨by decide, by decide⟩

/-! Claim C3 -/

theorem aggregate_max_eq_spec (srs : List StockRecord) :
    aggregate_max_in_stock srs = spec_max_in_stock srs := by
  unfold aggregate_max_in_stock spec_max_in_stock
  cases h : srs.filterMap StockRecord.num_in_stock <;> simp [List.max?]

/-- C3: the hurry flag computed by send_product_alert_email_for_user is true
iff the number of ACTIVE alerts on the product or its parent strictly
exceeds the maximum num_in_stock across the product's stock records, and
false whenever that maximum is unknown (all NULL, or — trivially — the
early-returning no-stockrecord case); in particular the single-stockrecord
shortcut, which reads that record's num_in_stock directly, agrees with the
aggregate maximum. -/
theorem hurry_mode_matches_spec (env : AlertEnv) (p : Product) :
    (send_product_alert_email_for_user env p).hurry_mode =
      spec_hurry_mode (active_alerts_for env.db_alerts p).length p.stockrecords := by
  unfold send_product_alert_email_for_user spec_hurry_mode
  cases hp : p.stockrecords with
  | nil => simp [spec_max_in_stock]
  | cons sr rest =>
    cases rest with
    | nil =>
      cases hn : sr.num_in_stock <;>
        simp [spec_max_in_stock, List.max?, hn]
    | cons sr2 rest2 =>
      rw [← aggregate_max_eq_spec]
      simp

/-! Claim C9 -/

/-- C9: for a product with no stock records the alert sender returns
immediately and has no effect: no notifications, no queued or sent
messages, no closed alerts, no error, and every alert keeps its status. -/
theorem no_stockrecords_no_effect (env : AlertEnv) (p : Product)
    (h : p.stockrecords = []) :
    send_product_alert_email_for_user env p =
      { hurry_mode := false, loop := {}, eff := {}, err := none } ∧
    ∀ a : Alert, alert_status_after (send_product_alert_email_for_user env p) a = a.status := by
  have h1 : send_product_alert_email_for_user env p =
      { hurry_mode := false, loop := {}, eff := {}, err := none } := by
    unfold send_product_alert_email_for_user
    simp [h]
  refine ⟨h1, fun a => ?_⟩
  rw [h1]
  unfold alert_status_after
  simp

/-- A concrete environment with no legacy templates, everything available,
and blank renderings; used to instantiate witnesses. -/
def envTriv : AlertEnv :=
  { settings := st0, site := "example.com", db_alerts := []
    available := fun _ => true
    legacyAlertSubjectTplExists := false, legacyAlertBodyTplExists := false
    renderLegacyAlertSubject := fun _ _ _ => "", renderLegacyAlertBody := fun _ _ _ => ""
    get_and_render_alert := fun _ _ _ => { subject := "", body := "", html := "", sms := "" }
    renderAlertNotifySubject := fun _ _ _ => "", renderAlertNotifyBody := fun _ _ _ => ""
    legacyConfirmSubjectTplExists := false, legacyConfirmBodyTplExists := false
    renderLegacyConfirmSubject := fun _ _ => "", renderLegacyConfirmBody := fun _ _ => ""
    get_and_render_confirmation := fun _ _ => { subject := "", body := "", html := "", sms := "" } }

def pNoStock : Product := { id := 3, parent_id := none, stockrecords := [] }

def aTriv : Alert :=
  { id := 30, product_id := 3, user := none, email := "t@x.com", status := .ACTIVE }

/-- Witness for C9 at a concrete product without stock records. -/
theorem no_stockrecords_no_effect_witness :
    send_product_alert_email_for_user envTriv pNoStock =
      { hurry_mode := false, loop := {}, eff := {}, err := none } ∧
    alert_status_after (send_product_alert_email_for_user envTriv pNoStock) aTriv =
      aTriv.status :=
  ⟨(no_stockrecords_no_effect envTriv pNoStock rfl).1,
   (no_stockrecords_no_effect envTriv pNoStock rfl).2 aTriv⟩

/-! Claim C4 -/

theorem process_alert_closed (env : AlertEnv) (h : Bool) (s : LoopOut) (a : Alert) :
    (process_alert env h s a).closed =
      if env.available a.user then s.closed ++ [a.id] else s.closed := by
  unfold process_alert
  cases hv : env.available a.user with
  | false => simp [hv]
  | true =>
    simp only [hv, Bool.not_true, Bool.false_eq_true, if_false, if_true]
    cases a.user <;> dsimp only <;> split <;> rfl

theorem foldl_process_closed_mono (env : AlertEnv) (h : Bool) (x : Nat) :
    ∀ (l : List Alert) (s : LoopOut), x ∈ s.closed →
      x ∈ (l.foldl (process_alert env h) s).closed := by
  intro l
  induction l with
  | nil => intro s hx; exact hx
  | cons b t ih =>
    intro s hx
    rw [List.foldl_cons]
    apply ih
    rw [process_alert_closed]
    split
    · exact List.mem_append_left _ hx
    · exact hx

theorem mem_foldl_process_closed (env : AlertEnv) (h : Bool) (a : Alert)
    (hava : env.available a.user = true) :
    ∀ (l : List Alert) (s : LoopOut), a ∈ l →
      a.id ∈ (l.foldl (process_alert env h) s).closed := by
  intro l
  induction l with
  | nil => intro s hmem; cases hmem
  | cons b t ih =>
    intro s hmem
    rw [List.foldl_cons]
    rcases List.mem_cons.mp hmem with rfl | h2
    · apply foldl_process_closed_mono
      rw [process_alert_closed, hava]
      simp
    · exact ih _ h2

/-- C4 (amended): every ACTIVE alert of the product or its parent whose
product is available to buy for its user is closed by the call, regardless
of whether any notification or email was actually sent for it; alerts
skipped by the availability check are left untouched (see the
counterexample for why the claim fails for those). -/
theorem available_alerts_closed (env : AlertEnv) (p : Product) (a : Alert)
    (hmem : a ∈ active_alerts_for env.db_alerts p)
    (hava : env.available a.user = true)
    (hsr : p.stockrecords ≠ []) :
    alert_status_after (send_product_alert_email_for_user env p) a = AlertStatus.CLOSED := by
  unfold send_product_alert_email_for_user
  cases hp : p.stockrecords with
  | nil => exact absurd hp hsr
  | cons sr rest =>
    rw [if_neg (by simp)]
    unfold alert_status_after
    dsimp only
    split
    all_goals
      split
      · rfl
      · next hnot => exact absurd (mem_foldl_process_closed env _ a hava _ _ hmem) hnot

def aC4 : Alert :=
  { id := 1, product_id := 10, user := none, email := "z@x.com", status := .ACTIVE }

def envC4 : AlertEnv := { envTriv with db_alerts := [aC4], available := fun _ => false }

def pC4 : Product := { id := 10, parent_id := none, stockrecords := [{ num_in_stock := some 5 }] }

/-- C4 counterexample: alert 1 is ACTIVE on product 10 and is examined by the
loop, but the availability strategy reports the product not available to
buy for its (anonymous) user, so the iteration skips it before alert.close()
and it is still ACTIVE after the call completes. -/
theorem unavailable_alert_stays_active :
    aC4 ∈ active_alerts_for envC4.db_alerts pC4 ∧
    aC4.status = AlertStatus.ACTIVE ∧
    pC4.stockrecords ≠ [] ∧
    alert_status_after (send_product_alert_email_for_user envC4 pC4) aC4 =
      AlertStatus.ACTIVE := by
  refine ⟨by decide, rfl, by decide, by decide⟩

def aC4w : Alert :=
  { id := 2, product_id := 11, user := none, email := "w@x.com", status := .ACTIVE }

def envC4w : AlertEnv := { envTriv with db_alerts := [aC4w] }

def pC4w : Product := { id := 11, parent_id := none, stockrecords := [{ num_in_stock := some 1 }] }

/-- Witness for C4 (amended): an available ACTIVE alert ends up CLOSED. -/
theorem available_alerts_closed_witness :
    alert_status_after (send_product_alert_email_for_user envC4w pC4w) aC4w =
      AlertStatus.CLOSED :=
  available_alerts_closed envC4w pC4w aC4w (by decide) (by decide) (by decide)

/-! Claim C10 -/

theorem process_alert_messages_to_send (env : AlertEnv) (h : Bool) (s : LoopOut) (a : Alert) :
    (process_alert env h s a).messages_to_send = s.messages_to_send ∨
    ((process_alert env h s a).messages_to_send =
        s.messages_to_send ++
          [(a.get_email_address, (legacy_or_current_alert_messages env a h).1)] ∧
      truthy (legacy_or_current_alert_messages env a h).1.body = true) := by
  unfold process_alert
  cases hv : env.available a.user with
  | false => left; simp [hv]
  | true =>
    simp only [hv, Bool.not_true, Bool.false_eq_true, if_false]
    cases hu : a.user with
    | some u =>
      dsimp only
      split
      · left; rfl
      · left; rfl
    | none =>
      dsimp only
      split
      · next hg =>
        right
        refine ⟨rfl, ?_⟩
        simp only [Bool.and_eq_true] at hg
        exact hg.2
      · left; rfl

theorem process_alert_user_messages (env : AlertEnv) (h : Bool) (s : LoopOut) (a : Alert) :
    (process_alert env h s a).user_messages_to_send = s.user_messages_to_send ∨
    (∃ u, (process_alert env h s a).user_messages_to_send =
        s.user_messages_to_send ++ [(u, (legacy_or_current_alert_messages env a h).1)] ∧
      truthy (legacy_or_current_alert_messages env a h).1.body = true) := by
  unfold process_alert
  cases hv : env.available a.user with
  | false => left; simp [hv]
  | true =>
    simp only [hv, Bool.not_true, Bool.false_eq_true, if_false]
    cases hu : a.user with
    | none =>
      dsimp only
      split
      · left; rfl
      · left; rfl
    | some u =>
      dsimp only
      split
      · next hg =>
        right
        refine ⟨u, rfl, ?_⟩
        simp only [Bool.and_eq_true] at hg
        exact hg.2
      · left; rfl

theorem mem_foldl_messages_to_send (env : AlertEnv) (h : Bool) :
    ∀ (l : List Alert) (s : LoopOut) (x : String × Messages),
      x ∈ (l.foldl (process_alert env h) s).messages_to_send →
      x ∈ s.messages_to_send ∨
      ∃ a, a ∈ l ∧ x.2 = (legacy_or_current_alert_messages env a h).1 ∧
        truthy x.2.body = true := by
  intro l
  induction l with
  | nil => intro s x hx; left; exact hx
  | cons b t ih =>
    intro s x hx
    rw [List.foldl_cons] at hx
    rcases ih _ x hx with hx2 | ⟨a, ha, hb, hc⟩
    · rcases process_alert_messages_to_send env h s b with he | ⟨he, ht⟩
      · rw [he] at hx2; left; exact hx2
      · rw [he] at hx2
        rcases List.mem_append.mp hx2 with h1 | h1
        · left; exact h1
        · have hx3 : x = (b.get_email_address, (legacy_or_current_alert_messages env b h).1) :=
            List.mem_singleton.mp h1
          right
          refine ⟨b, List.mem_cons_self b t, ?_, ?_⟩
          · rw [hx3]
          · rw [hx3]; exact ht
    · right; exact ⟨a, List.mem_cons_of_mem b ha, hb, hc⟩

theorem mem_foldl_user_messages (env : AlertEnv) (h : Bool) :
    ∀ (l : List Alert) (s : LoopOut) (x : User × Messages),
      x ∈ (l.foldl (process_alert env h) s).user_messages_to_send →
      x ∈ s.user_messages_to_send ∨
      ∃ a, a ∈ l ∧ x.2 = (legacy_or_current_alert_messages env a h).1 ∧
        truthy x.2.body = true := by
  intro l
  induction l with
  | nil => intro s x hx; left; exact hx
  | cons b t ih =>
    intro s x hx
    rw [List.foldl_cons] at hx
    rcases ih _ x hx with hx2 | ⟨a, ha, hb, hc⟩
    · rcases process_alert_user_messages env h s b with he | ⟨u, he, ht⟩
      · rw [he] at hx2; left; exact hx2
      · rw [he] at hx2
        rcases List.mem_append.mp hx2 with h1 | h1
        · left; exact h1
        · have hx3 : x = (u, (legacy_or_current_alert_messages env b h).1) :=
            List.mem_singleton.mp h1
          right
          refine ⟨b, List.mem_cons_self b t, ?_, ?_⟩
          · rw [hx3]
          · rw [hx3]; exact ht
    · right; exact ⟨a, List.mem_cons_of_mem b ha, hb, hc⟩

/-- C10: the product-alert fan-out queues a rendered bundle (into either the
direct or the user message list, hence into the final dispatch) only when
its body is non-empty — an html-only bundle is dropped there — whereas the
general direct-email gate does accept a bundle with a subject and html but
no body. -/
theorem fanout_requires_body (env : AlertEnv) (p : Product) :
    (∀ x ∈ (send_product_alert_email_for_user env p).loop.messages_to_send,
      x.2.body ≠ "") ∧
    (∀ x ∈ (send_product_alert_email_for_user env p).loop.user_messages_to_send,
      x.2.body ≠ "") ∧
    (∀ (st : Settings) (r : String) (m : Messages), m.subject ≠ "" → m.html ≠ "" →
      (dispatch_direct_messages st r m).2.emailsSent ≠ []) := by
  refine ⟨fun x hx => ?_, fun x hx => ?_, fun st r m hs hh => ?_⟩
  · unfold send_product_alert_email_for_user at hx
    dsimp only at hx
    split at hx
    · simp at hx
    · dsimp only at hx
      rcases mem_foldl_messages_to_send env _ _ _ x hx with h1 | ⟨a2, _, _, hc⟩
      · simp at h1
      · exact (truthy_eq_true_iff x.2.body).mp hc
  · unfold send_product_alert_email_for_user at hx
    dsimp only at hx
    split at hx
    · simp at hx
    · dsimp only at hx
      rcases mem_foldl_user_messages env _ _ _ x hx with h1 | ⟨a2, _, _, hc⟩
      · simp at h1
      · exact (truthy_eq_true_iff x.2.body).mp hc
  · have h1 : truthy m.subject = true := (truthy_eq_true_iff m.subject).mpr hs
    have h2 : truthy m.html = true := (truthy_eq_true_iff m.html).mpr hh
    unfold dispatch_direct_messages
    simp [h1, h2, send_email_messages]

def aC10 : Alert :=
  { id := 4, product_id := 20, user := none, email := "n@x.com", status := .ACTIVE }

def envC10 : AlertEnv := { envTriv with
  db_alerts := [aC10]
  legacyAlertSubjectTplExists := true, legacyAlertBodyTplExists := true
  renderLegacyAlertSubject := fun _ _ _ => "S", renderLegacyAlertBody := fun _ _ _ => "B" }

def pC10 : Product :=
  { id := 20, parent_id := none, stockrecords := [{ num_in_stock := some 2 }] }

def mQueued : Messages := { subject := "S", body := "B", html := "", sms := "" }

def mHtmlOnly : Messages := { subject := "s", body := "", html := "<p>x</p>", sms := "" }

/-- Witness for C10: a queued bundle of a concrete fan-out run has a
non-empty body, while the direct gate does send an html-only bundle. -/
theorem fanout_requires_body_witness :
    mQueued.body ≠ "" ∧
    (dispatch_direct_messages st0 "r@x.com" mHtmlOnly).2.emailsSent ≠ [] := by
  constructor
  · exact (fanout_requires_body envC10 pC10).1 ("n@x.com", mQueued) (by decide)
  · exact (fanout_requires_body envC10 pC10).2.2 st0 "r@x.com" mHtmlOnly (by decide) (by decide)

/-! Claim C6 -/

theorem legacy_alert_messages_of_exists (env : AlertEnv) (a : Alert) (h : Bool)
    (hl : (env.legacyAlertSubjectTplExists && env.legacyAlertBodyTplExists) = true) :
    legacy_or_current_alert_messages env a h = (legacy_alert_bundle env a h, 1) := by
  rw [Bool.and_eq_true] at hl
  unfold legacy_or_current_alert_messages load_legacy_alert_templates
  simp [hl.1, hl.2]

theorem legacy_alert_messages_of_missing (env : AlertEnv) (a : Alert) (h : Bool)
    (hl : (env.legacyAlertSubjectTplExists && env.legacyAlertBodyTplExists) = false) :
    legacy_or_current_alert_messages env a h =
      (env.get_and_render_alert env.site a h, 0) := by
  unfold legacy_or_current_alert_messages load_legacy_alert_templates
  cases h1 : env.legacyAlertSubjectTplExists <;>
    cases h2 : env.legacyAlertBodyTplExists <;>
    simp_all

theorem legacy_confirmation_messages_of_exists (env : AlertEnv) (ctx : ConfirmCtx)
    (hl : (env.legacyConfirmSubjectTplExists && env.legacyConfirmBodyTplExists) = true) :
    legacy_or_current_confirmation_messages env ctx = (legacy_confirmation_bundle env ctx, 1) := by
  rw [Bool.and_eq_true] at hl
  unfold legacy_or_current_confirmation_messages load_legacy_confirmation_templates
  simp [hl.1, hl.2]

theorem legacy_confirmation_messages_of_missing (env : AlertEnv) (ctx : ConfirmCtx)
    (hl : (env.legacyConfirmSubjectTplExists && env.legacyConfirmBodyTplExists) = false) :
    legacy_or_current_confirmation_messages env ctx =
      (env.get_and_render_confirmation env.site ctx, 0) := by
  unfold legacy_or_current_confirmation_messages load_legacy_confirmation_templates
  cases h1 : env.legacyConfirmSubjectTplExists <;>
    cases h2 : env.legacyConfirmBodyTplExists <;>
    simp_all

theorem process_alert_warns_zero (env : AlertEnv) (h : Bool) (s : LoopOut) (a : Alert)
    (hl : (env.legacyAlertSubjectTplExists && env.legacyAlertBodyTplExists) = false) :
    (process_alert env h s a).deprecation_warnings = s.deprecation_warnings := by
  unfold process_alert
  cases hv : env.available a.user with
  | false => simp [hv]
  | true =>
    simp only [hv, Bool.not_true, Bool.false_eq_true, if_false]
    rw [legacy_alert_messages_of_missing env a h hl]
    cases hu : a.user <;> dsimp only <;> split <;> simp

theorem foldl_warns_zero (env : AlertEnv) (h : Bool)
    (hl : (env.legacyAlertSubjectTplExists && env.legacyAlertBodyTplExists) = false) :
    ∀ (l : List Alert) (s : LoopOut),
      (l.foldl (process_alert env h) s).deprecation_warnings = s.deprecation_warnings := by
  intro l
  induction l with
  | nil => intro s; rfl
  | cons b t ih =>
    intro s
    rw [List.foldl_cons, ih, process_alert_warns_zero env h s b hl]

/-- C6: both alert senders prefer the legacy template set: when both legacy
templates exist the legacy-rendered bundle is used, with one deprecation
warning per rendering; when a legacy template is missing the
TemplateDoesNotExist is caught and the current-template path (get_messages
with the corresponding event code) is used with no warning and no escaping
exception.  Accordingly the confirmation sender returns the legacy bundle
with one warning or the current bundle with none, and the fan-out emits no
deprecation warning without the legacy set while with it every queued
bundle is legacy-shaped (empty html and sms). -/
theorem legacy_templates_preferred (env : AlertEnv) (a : Alert) (h : Bool)
    (extra : Option ConfirmCtx) (p : Product) :
    ((env.legacyAlertSubjectTplExists && env.legacyAlertBodyTplExists) = true →
      legacy_or_current_alert_messages env a h = (legacy_alert_bundle env a h, 1)) ∧
    ((env.legacyAlertSubjectTplExists && env.legacyAlertBodyTplExists) = false →
      legacy_or_current_alert_messages env a h =
        (env.get_and_render_alert env.site a h, 0)) ∧
    ((env.legacyConfirmSubjectTplExists && env.legacyConfirmBodyTplExists) = true →
      (send_product_alert_confirmation_email_for_user env a extra).messages =
          legacy_confirmation_bundle env (extra.getD { alert := some a }) ∧
        (send_product_alert_confirmation_email_for_user env a extra).deprecation_warnings = 1) ∧
    ((env.legacyConfirmSubjectTplExists && env.legacyConfirmBodyTplExists) = false →
      (send_product_alert_confirmation_email_for_user env a extra).messages =
          env.get_and_render_confirmation env.site (extra.getD { alert := some a }) ∧
        (send_product_alert_confirmation_email_for_user env a extra).deprecation_warnings = 0) ∧
    ((env.legacyAlertSubjectTplExists && env.legacyAlertBodyTplExists) = false →
      (send_product_alert_email_for_user env p).loop.deprecation_warnings = 0) ∧
    ((env.legacyAlertSubjectTplExists && env.legacyAlertBodyTplExists) = true →
      ∀ x ∈ (send_product_alert_email_for_user env p).loop.messages_to_send,
        x.2.html = "" ∧ x.2.sms = "") := by
  refine ⟨legacy_alert_messages_of_exists env a h,
          legacy_alert_messages_of_missing env a h,
          fun hl => ?_, fun hl => ?_, fun hl => ?_, fun hl x hx => ?_⟩
  · unfold send_product_alert_confirmation_email_for_user
    dsimp only
    rw [legacy_confirmation_messages_of_exists env _ hl]
    exact ⟨rfl, rfl⟩
  · unfold send_product_alert_confirmation_email_for_user
    dsimp only
    rw [legacy_confirmation_messages_of_missing env _ hl]
    exact ⟨rfl, rfl⟩
  · unfold send_product_alert_email_for_user
    dsimp only
    split
    · rfl
    · dsimp only
      rw [foldl_warns_zero env _ hl]
  · unfold send_product_alert_email_for_user at hx
    dsimp only at hx
    split at hx
    · simp at hx
    · dsimp only at hx
      rcases mem_foldl_messages_to_send env _ _ _ x hx with h1 | ⟨a2, _, hb, _⟩
      · simp at h1
      · rw [legacy_alert_messages_of_exists env a2 _ hl] at hb
        rw [hb]
        exact ⟨rfl, rfl⟩

def aC6 : Alert :=
  { id := 5, product_id := 21, user := none, email := "c6@x.com", status := .ACTIVE }

def envC6 : AlertEnv := { envTriv with
  legacyAlertSubjectTplExists := true, legacyAlertBodyTplExists := true
  renderLegacyAlertSubject := fun _ _ _ => "LS", renderLegacyAlertBody := fun _ _ _ => "LB" }

def pC6 : Product := { id := 21, parent_id := none, stockrecords := [] }

/-- Witness for C6: with the legacy alert templates present the legacy bundle
is chosen with a warning, and with the legacy confirmation templates absent
the confirmation send emits no deprecation warning. -/
theorem legacy_templates_preferred_witness :
    legacy_or_current_alert_messages envC6 aC6 false = (legacy_alert_bundle envC6 aC6 false, 1) ∧
    (send_product_alert_confirmation_email_for_user envC6 aC6 none).deprecation_warnings = 0 :=
  ⟨(legacy_templates_preferred envC6 aC6 false none pC6).1 rfl,
   ((legacy_templates_preferred envC6 aC6 false none pC6).2.2.2.1 rfl).2⟩

end Oscar
